import Mathlib

/-!
Verification of the KissanMart order/settlement core: a shallow embedding of
the order models, totals computation, status transitions, the cancellation /
refund engine, the inventory signal handlers and the external-service client,
together with theorems settling the specified properties.

Money is modelled as exact rationals (the source uses Python `Decimal`
fixed-point arithmetic throughout, never binary floating point).
-/

namespace Kissanmart

/-- Monetary amount: exact decimal arithmetic, embedded as a rational. -/
abbrev Money := ℚ

/-- Order status enum, from ORDER_STATUS_CHOICES in orders/models.py. -/
inductive OrderStatus where
  | pending | confirmed | processing | packed | shipped
  | in_transit | delivered | cancelled | refunded | failed
  deriving DecidableEq, Repr, Fintype

/-- Payment status enum, from PAYMENT_STATUS_CHOICES in orders/models.py. -/
inductive PaymentStatus where
  | pending | completed | failed | refunded
  deriving DecidableEq, Repr

/-- Payment method enum, from PAYMENT_METHOD_CHOICES in orders/models.py. -/
inductive PaymentMethod where
  | upi | netbanking | card | wallet | cod
  deriving DecidableEq, Repr

/-- Round a rational to the nearest integer with ties going to the even
integer: the behaviour of Python `Decimal.quantize` under the default
context rounding `ROUND_HALF_EVEN`. -/
def roundHalfEvenInt (x : ℚ) : ℤ :=
  let n := ⌊x⌋
  let frac := x - n
  if frac < 1/2 then n
  else if 1/2 < frac then n + 1
  else if n % 2 = 0 then n else n + 1

/-- Python Decimal.quantize to 0.01 with the default context rounding:
round to two decimal places, ties to the even cent. -/
def quantize2 (x : ℚ) : ℚ := (roundHalfEvenInt (x * 100) : ℚ) / 100

/-- Modelled from the spec: round-half-up to the nearest integer, the rounding
mode the spec prescribes for the platform fee ("banker's-unaffected
round-half-up").  Kept separate from `roundHalfEvenInt` (the source's
behaviour) so the two can be compared. -/
def roundHalfUpIntSpec (x : ℚ) : ℤ :=
  let n := ⌊x⌋
  if x - n < 1/2 then n else n + 1

/-- Modelled from the spec: round-half-up to two decimal places. -/
def quantize2HalfUpSpec (x : ℚ) : ℚ := (roundHalfUpIntSpec (x * 100) : ℚ) / 100

/-- Platform fee computation from OrderCreateSerializer.create
(orders/api/serializers.py line 340) and CreateRazorpayOrderView.post
(orders/api/razorpay_views.py line 70):
`(platform_base * (Decimal(str(pct)) / Decimal('100.0'))).quantize(Decimal('0.01'))`. -/
def platform_fee_calc (platform_base pct : ℚ) : ℚ :=
  quantize2 (platform_base * (pct / 100))

/-- Shipping charge rule used by OrderCreateSerializer.create (line 326) and
Order.calculate_totals (orders/models.py line 191): free above 500, flat 50
otherwise. -/
def shipping_for_subtotal (subtotal : Money) : Money :=
  if 500 < subtotal then 0 else 50

/-- One order line item (money-relevant fields of orders.models.OrderItem). -/
structure OrderItem where
  quantity : ℚ
  unit_price : Money
  total_price : Money
  deriving DecidableEq, Repr

/-- OrderItem.save (orders/models.py line 307) always recomputes
`total_price = quantity * unit_price`. -/
def order_item_save (quantity unit_price : ℚ) : OrderItem :=
  { quantity := quantity, unit_price := unit_price,
    total_price := quantity * unit_price }

/-- The order fields this development needs (orders.models.Order).  The fee
fields `razorpay_fee`, `platform_fee` and `payment_mode_charge` are read and
written by the serializers and views in the source; their declarations sit in
model code outside the available tree, so they are carried here as plain
decimal fields exactly as the in-tree callers use them. -/
structure Order where
  status : OrderStatus
  payment_method : PaymentMethod
  payment_status : PaymentStatus
  subtotal : Money
  shipping_charges : Money
  discount_amount : Money
  tax_amount : Money
  razorpay_fee : Money
  platform_fee : Money
  payment_mode_charge : Money
  total_amount : Money
  payment_transaction_id : Option String
  razorpay_order_id : Option String
  razorpay_payment_id : Option String
  razorpay_signature : Option String
  shiprocket_order_id : Option String
  deriving DecidableEq, Repr

/-- Order.calculate_totals (orders/models.py lines 185-194): recompute
subtotal from the items, shipping from the subtotal, and the total as
`subtotal + shipping_charges + tax_amount - discount_amount`. -/
def calculate_totals (o : Order) (items : List OrderItem) : Order :=
  let subtotal := (items.map OrderItem.total_price).sum
  let shipping := if 500 < subtotal then 0 else 50
  { o with subtotal := subtotal, shipping_charges := shipping,
           total_amount := subtotal + shipping + o.tax_amount - o.discount_amount }

/-- Input to order creation: quantity and unit price of one requested item. -/
structure CreateItemInput where
  quantity : ℚ
  unit_price : Money
  deriving DecidableEq, Repr

/-- Money fields of the order built by OrderCreateSerializer.create
(orders/api/serializers.py lines 264-353).  `pctLookup` is the result of
`PaymentModeCharge.get_percentage_for_mode` (admin-configured rate table,
declared outside the available tree); `none` models the exception branch in
which the platform fee falls back to zero. -/
def order_create_money (pm : PaymentMethod) (items : List CreateItemInput)
    (pctLookup : Option ℚ) : Order :=
  let subtotal := (items.map (fun i => (order_item_save i.quantity i.unit_price).total_price)).sum
  let shipping := if 500 < subtotal then 0 else 50
  let platformFee : Money :=
    if pm = PaymentMethod.cod then 0
    else match pctLookup with
      | some pct => platform_fee_calc (subtotal + shipping) pct
      | none => 0
  { status := if pm = PaymentMethod.cod then OrderStatus.confirmed else OrderStatus.pending
    payment_method := pm
    payment_status := PaymentStatus.pending
    subtotal := subtotal
    shipping_charges := shipping
    discount_amount := 0
    tax_amount := 0
    razorpay_fee := 0
    platform_fee := platformFee
    payment_mode_charge := 0
    total_amount := subtotal + shipping + 0 + platformFee - 0
    payment_transaction_id := none
    razorpay_order_id := none
    razorpay_payment_id := none
    razorpay_signature := none
    shiprocket_order_id := none }

/-! ## Order state machine -/

/-- One append-only status-history row (orders.models.OrderStatusHistory). -/
structure HistoryEntry where
  status : OrderStatus
  title : String
  change_source : String
  deriving DecidableEq, Repr

/-- The transition table of OrderUpdateSerializer.validate_status
(orders/api/serializers.py lines 392-403), copied verbatim. -/
def valid_transitions : OrderStatus → List OrderStatus
  | .pending => [.confirmed, .cancelled]
  | .confirmed => [.processing, .cancelled]
  | .processing => [.packed, .cancelled]
  | .packed => [.shipped, .cancelled]
  | .shipped => [.in_transit]
  | .in_transit => [.delivered, .cancelled]
  | .delivered => []
  | .cancelled => []
  | .refunded => []
  | .failed => [.pending, .cancelled]

/-- Modelled from the spec: the transition table written in section 4.3 of
the specification, kept separate from `valid_transitions` (the table in the
source) so the two can be compared. -/
def spec_transitions : OrderStatus → List OrderStatus
  | .pending => [.confirmed, .cancelled, .failed]
  | .confirmed => [.processing, .cancelled]
  | .processing => [.packed, .cancelled]
  | .packed => [.shipped, .cancelled]
  | .shipped => [.in_transit]
  | .in_transit => [.delivered, .cancelled]
  | .delivered => []
  | .cancelled => []
  | .refunded => []
  | .failed => [.pending, .cancelled]

/-- OrderUpdateSerializer.validate_status (serializers.py lines 388-410):
accept the target status only when the table allows it, otherwise raise a
ValidationError before any mutation happens. -/
def validate_status (current target : OrderStatus) : Except String OrderStatus :=
  if target ∈ valid_transitions current then Except.ok target
  else Except.error "Cannot change status"

/-- Deterministic history title derived from the target status
(status_titles map in OrderUpdateSerializer.update, serializers.py 419-427). -/
def status_title : OrderStatus → String
  | .confirmed => "Order Confirmed"
  | .processing => "Order Processing"
  | .packed => "Order Packed"
  | .shipped => "Order Shipped"
  | .in_transit => "Out for Delivery"
  | .delivered => "Order Delivered"
  | .cancelled => "Order Cancelled"
  | _ => "Status Updated"

/-- The status-update operation: OrderUpdateSerializer validate + update
(serializers.py lines 388-448).  Validation failure raises before update
runs, so on error neither the order nor its history is touched; on success
the status is set and exactly one history entry is appended. -/
def order_update (o : Order) (hist : List HistoryEntry) (target : OrderStatus)
    (isAdmin : Bool) : Except String (Order × List HistoryEntry) :=
  match validate_status o.status target with
  | .error e => .error e
  | .ok t =>
      let o2 := { o with status := t }
      if t ≠ o.status then
        .ok (o2, hist ++ [⟨t, status_title t, if isAdmin then "admin" else "api"⟩])
      else .ok (o2, hist)

/-! ## Inventory signal handlers -/

/-- update_product_quantity_on_order_item_save (orders/signals.py lines
14-30): post_save on a newly created OrderItem locks the product row and
decrements its available quantity, raising when stock is insufficient. -/
def signal_item_created (db quantity : ℚ) : Except String ℚ :=
  if quantity ≤ db then .ok (db - quantity)
  else .error "Insufficient quantity available"

/-- restore_product_quantity_on_order_item_delete (signals.py lines 33-45). -/
def signal_item_deleted (db quantity : ℚ) : ℚ := db + quantity

/-- handle_order_item_quantity_changes (signals.py lines 86-114): pre_save on
an existing OrderItem adjusts stock by the quantity difference, exactly
once. -/
def signal_item_quantity_changed (db oldq newq : ℚ) : Except String ℚ :=
  let diff := newq - oldq
  if diff = 0 then .ok db
  else if 0 < diff then
    if diff ≤ db then .ok (db - diff)
    else .error "Insufficient quantity available"
  else .ok (db + |diff|)

/-- handle_order_status_changes (signals.py lines 63-83): post_save on an
Order whose status just moved to cancelled restores every item's quantity. -/
def signal_order_cancelled (db : ℚ) (itemQuantities : List ℚ) : ℚ :=
  itemQuantities.foldl (fun d q => d + q) db

/-- The inventory effect of OrderCreateSerializer.create for one line item
(serializers.py lines 304-322): OrderItem.objects.create fires
`signal_item_created` against a freshly locked row, after which the
serializer decrements its own in-memory copy of the product — fetched at
validation time, before the signal ran — and saves it, overwriting the row
with (snapshot - quantity). -/
def create_item_inventory (db q : ℚ) : Except String ℚ :=
  match signal_item_created db q with
  | .error e => .error e
  | .ok _ => .ok (db - q)

/-- The inventory effect of CancelOrderView.post (orders/api/views.py lines
269-276) for a one-item order: order.save() with status cancelled fires
`signal_order_cancelled`, restoring the quantity once; the view then reloads
the product — seeing the already-restored value — and adds the quantity a
second time. -/
def cancel_order_inventory (db q : ℚ) : ℚ :=
  signal_order_cancelled db [q] + q

/-! ## Cancellation / refund engine -/

/-- Request status lifecycle of a cancellation request. -/
inductive RequestStatus where
  | pending | approved | rejected | refund_processed
  deriving DecidableEq, Repr

/-- Cancellation request record (a one-to-one satellite of an Order).  The
model class body sits outside the available tree; the fields are exactly the
ones the in-tree serializers and views read and write
(serializers.py lines 613-629 and 719-758, cancellation_views.py). -/
structure CancellationRequest where
  request_status : RequestStatus
  refund_amount : Money
  razorpay_fee_deduction : Money
  platform_fee_deduction : Money
  final_refund_amount : Money
  razorpay_refund_id : Option String
  shiprocket_cancelled : Bool
  admin_notes : String
  deriving DecidableEq, Repr

/-- OrderCancellationRequestCreateSerializer.create (serializers.py lines
719-758): snapshot the refund amount from the order total, take the
deductions from the order's recorded fees, and clamp the derived final
amount at zero. -/
def create_cancellation_request (o : Order) : CancellationRequest :=
  let refund := o.total_amount
  let rpd := o.razorpay_fee
  let pfd := o.platform_fee
  let final0 := refund - rpd - pfd
  let final := if final0 < 0 then 0 else final0
  { request_status := .pending
    refund_amount := refund
    razorpay_fee_deduction := rpd
    platform_fee_deduction := pfd
    final_refund_amount := final
    razorpay_refund_id := none
    shiprocket_cancelled := false
    admin_notes := "" }

/-- Admin inputs to AdminProcessRefundView, after serializer field parsing
(AdminRefundProcessSerializer, serializers.py lines 771-783). -/
structure RefundOverrides where
  process_refund : Bool
  cancel_in_shiprocket : Bool
  final_refund_amount : Option Money
  razorpay_fee_deduction : Option Money
  platform_fee_deduction : Option Money
  deriving DecidableEq, Repr

/-- True when an optional override is provided and negative. -/
def is_neg (v : Option Money) : Bool :=
  match v with
  | some x => decide (x < 0)
  | none => false

/-- AdminRefundProcessSerializer.validate (serializers.py lines 785-825),
check for check: the request must still be pending; provided overrides must
be non-negative; a provided final amount must not exceed the refundable
total; provided deductions must not exceed it either; and when a final
amount is provided together with at least one deduction override, the two
must be consistent within the 0.10 rounding tolerance.  A final amount
alone skips the consistency check. -/
def admin_refund_validate (cr : CancellationRequest) (d : RefundOverrides) :
    Except String Unit :=
  if cr.request_status ≠ RequestStatus.pending then
    .error "Cannot process refund for request not in pending status"
  else if is_neg d.razorpay_fee_deduction || is_neg d.platform_fee_deduction
      || is_neg d.final_refund_amount then
    .error "Must be a non-negative amount"
  else if d.final_refund_amount.elim false (fun f => decide (cr.refund_amount < f)) then
    .error "Cannot refund more than order total amount"
  else if (d.razorpay_fee_deduction.isSome || d.platform_fee_deduction.isSome)
      && decide (cr.refund_amount <
          d.razorpay_fee_deduction.getD 0 + d.platform_fee_deduction.getD 0) then
    .error "Deductions cannot exceed the total refundable amount"
  else if d.final_refund_amount.isSome
      && (d.razorpay_fee_deduction.isSome || d.platform_fee_deduction.isSome)
      && decide ((1 : ℚ)/10 <
          |cr.refund_amount
            - (d.razorpay_fee_deduction.getD 0 + d.platform_fee_deduction.getD 0)
            - d.final_refund_amount.getD 0|) then
    .error "Provided final_refund_amount does not match deductions"
  else .ok ()

/-- Modelled from the spec: OrderCancellationRequest.approve_cancellation is
declared in model code outside the available tree; section 4.4 phase 1 of
the specification says approval marks the request approved and records the
reviewer's notes. -/
def approve_cancellation (cr : CancellationRequest) (notes : String) :
    CancellationRequest :=
  { cr with request_status := .approved, admin_notes := notes }

/-- Modelled from the spec: OrderCancellationRequest.mark_refund_processed
is declared in model code outside the available tree; section 4.4 phase 3
says a successful refund marks the request refund_processed, recording the
external refund reference. -/
def mark_refund_processed (cr : CancellationRequest) (rid : String) :
    CancellationRequest :=
  { cr with request_status := .refund_processed, razorpay_refund_id := some rid }

/-- Joint state mutated by the admin refund operation. -/
structure RefundState where
  request : CancellationRequest
  order : Order
  history : List HistoryEntry
  deriving DecidableEq, Repr

/-- Outcome of the payment-gateway refund call (RazorpayService.refund_payment):
a refund id on success, a non-success response, or a raised exception. -/
inductive RefundOutcome where
  | ok (refund_id : String) | failed | exn
  deriving DecidableEq, Repr

/-- Outcome of the carrier cancellation call (ShiprocketService.cancel_order). -/
inductive CarrierOutcome where
  | ok | failed | exn
  deriving DecidableEq, Repr

/-- Response returned by AdminProcessRefundView.post. -/
inductive RefundResponse where
  | ok (shiprocket_cancelled refund_processed : Bool)
  | badRequest (msg : String)
  | serverError (msg : String)
  deriving DecidableEq, Repr

/-- The Shiprocket phase of AdminProcessRefundView.post (cancellation_views.py
lines 450-484): attempted only when requested, when a carrier order exists,
and when the refund succeeded or was not requested; carrier failure or
exception is swallowed and mutates nothing. -/
def shiprocket_phase (st : RefundState) (d : RefundOverrides)
    (refund_success : Bool) (carrierCall : CarrierOutcome) : RefundState :=
  if d.cancel_in_shiprocket && st.order.shiprocket_order_id.isSome
      && ((d.process_refund && refund_success) || !d.process_refund) then
    match carrierCall with
    | .ok =>
        { request := { st.request with shiprocket_cancelled := true }
          order := { st.order with status := .cancelled }
          history := st.history
            ++ [⟨.cancelled, "Order Cancelled in Shiprocket", "admin"⟩] }
    | .failed => st
    | .exn => st
  else st

/-- AdminProcessRefundView.post after successful validation
(cancellation_views.py lines 351-496).  The whole body runs inside
`transaction.atomic()`, but every failure path leaves the block with a
`return Response(...)` — a normal exit — so Django commits whatever was
mutated up to that point; only an escaping exception would roll back, and
none escapes.  The embedding therefore returns the mutated state on every
path.  Order of operations mirrors the source: approve the request, apply
admin overrides, save, call the gateway refund, then the carrier phase. -/
def admin_process_refund (st : RefundState) (d : RefundOverrides)
    (notes : String) (refundCall : RefundOutcome)
    (carrierCall : CarrierOutcome) : RefundState × RefundResponse :=
  let cr := approve_cancellation st.request notes
  let refund_total := cr.refund_amount
  let cr :=
    if d.razorpay_fee_deduction.isSome || d.platform_fee_deduction.isSome then
      let rpd_val := d.razorpay_fee_deduction.getD 0
      let pfd_val := d.platform_fee_deduction.getD 0
      { cr with razorpay_fee_deduction := rpd_val
                platform_fee_deduction := pfd_val
                final_refund_amount := max (refund_total - (rpd_val + pfd_val)) 0 }
    else cr
  let cr :=
    match d.final_refund_amount with
    | some fo =>
        let cr := { cr with final_refund_amount := fo }
        let cr :=
          if d.razorpay_fee_deduction.isNone then
            { cr with razorpay_fee_deduction :=
                if cr.razorpay_fee_deduction = 0 then st.order.razorpay_fee
                else cr.razorpay_fee_deduction }
          else cr
        if d.platform_fee_deduction.isNone then
          { cr with platform_fee_deduction :=
              if cr.platform_fee_deduction = 0 then st.order.platform_fee
              else cr.platform_fee_deduction }
        else cr
    | none => cr
  if d.process_refund && st.order.razorpay_payment_id.isSome then
    match refundCall with
    | .ok rid =>
        let cr2 := mark_refund_processed { cr with razorpay_refund_id := some rid } rid
        let ord2 := { st.order with payment_status := .refunded }
        let st2 : RefundState :=
          { request := cr2, order := ord2
            history := st.history ++ [⟨ord2.status, "Refund Processed", "admin"⟩] }
        let st3 := shiprocket_phase st2 d true carrierCall
        (st3, .ok st3.request.shiprocket_cancelled true)
    | .failed =>
        ({ st with request := cr }, .badRequest "Failed to process refund in Razorpay")
    | .exn =>
        ({ st with request := cr }, .serverError "Error processing refund")
  else
    let st2 := shiprocket_phase { st with request := cr } d false carrierCall
    (st2, .ok st2.request.shiprocket_cancelled false)

/-! ## Razorpay payment verification -/

/-- Validated body of a payment-verification request
(RazorpayPaymentVerificationSerializer). -/
structure VerifyRequest where
  razorpay_order_id : String
  razorpay_payment_id : String
  razorpay_signature : String
  deriving DecidableEq, Repr

/-- Payment details fetched from the gateway (RazorpayService.fetch_payment),
amount in paise. -/
structure PaymentDetails where
  amount : ℤ
  payment_status : String
  deriving DecidableEq, Repr

/-- Response of the verification endpoint. -/
inductive VerifyResponse where
  | ok | badRequest (msg : String)
  deriving DecidableEq, Repr

/-- Truncation toward zero, the behaviour of Python int() on an exact
Decimal value. -/
def py_int (x : ℚ) : ℤ := x.num / (x.den : ℤ)

/-- VerifyRazorpayPaymentView.post (orders/api/razorpay_views.py lines
189-336).  `serializerValid` is the outcome of serializer field validation,
`signatureValid` the HMAC comparison, `fetchResult` the gateway fetch
(`none` models a non-success fetch).  The guard on the order's current
payment status comes first, before any verification or mutation. -/
def verify_razorpay_payment (o : Order) (hist : List HistoryEntry)
    (req : VerifyRequest) (serializerValid signatureValid : Bool)
    (fetchResult : Option PaymentDetails) :
    Order × List HistoryEntry × VerifyResponse :=
  if o.payment_status = PaymentStatus.completed then
    (o, hist, .badRequest "Payment already completed for this order")
  else if !serializerValid then
    (o, hist, .badRequest "Invalid payment verification data")
  else if o.razorpay_order_id ≠ some req.razorpay_order_id then
    (o, hist, .badRequest "Order ID mismatch")
  else if !signatureValid then
    (o, hist, .badRequest "Invalid payment signature")
  else
    match fetchResult with
    | none => (o, hist, .badRequest "Failed to fetch payment details")
    | some pd =>
        if pd.amount ≠ py_int (o.total_amount * 100) then
          (o, hist, .badRequest "Payment amount mismatch")
        else if pd.payment_status ≠ "captured" then
          (o, hist, .badRequest "Payment not captured")
        else
          let o2 := { o with
            payment_status := PaymentStatus.completed
            payment_transaction_id := some req.razorpay_payment_id
            razorpay_payment_id := some req.razorpay_payment_id
            razorpay_signature := some req.razorpay_signature
            status := if o.status = OrderStatus.pending then OrderStatus.confirmed
                      else o.status }
          (o2, hist ++ [⟨.confirmed, "Payment Successful", "razorpay"⟩], .ok)

/-! ## Shipping-carrier client -/

/-- An HTTP response from the carrier API. -/
structure HttpResponse where
  statusCode : ℕ
  body : String
  deriving DecidableEq, Repr

/-- One outbound data request: the bearer token used and the per-attempt
timeout in seconds. -/
structure SentRequest where
  token : String
  timeout : ℕ
  deriving DecidableEq, Repr

/-- Observable result of ShiprocketService._make_request: the data requests
issued, the token cache afterwards, and the returned body or raised error. -/
structure RequestTrace where
  sent : List SentRequest
  cacheAfter : Option String
  result : Except String String
  deriving Repr

/-- ShiprocketService._make_request (services/shiprocket.py lines 84-129).
`cache` is the cached auth token; `freshToken` and `fresh2` are the tokens
the auth exchange would return on its first and second invocation;
`resp1` and `resp2` are the carrier's responses to the first and (when
reached) second data request.  On a 401 the cached token is deleted, a fresh
token fetched and cached, and the request re-sent exactly once; then
raise_for_status turns any remaining 4xx/5xx status into a
ShiprocketAPIError.  Every attempt carries the fixed 30-second timeout. -/
def make_request (cache : Option String) (freshToken fresh2 : String)
    (resp1 resp2 : HttpResponse) : RequestTrace :=
  let tok1 := cache.getD freshToken
  let cache1 := some tok1
  let req1 : SentRequest := ⟨tok1, 30⟩
  if resp1.statusCode = 401 then
    let req2 : SentRequest := ⟨fresh2, 30⟩
    if 400 ≤ resp2.statusCode then
      ⟨[req1, req2], some fresh2, .error "ShiprocketAPIError"⟩
    else
      ⟨[req1, req2], some fresh2, .ok resp2.body⟩
  else if 400 ≤ resp1.statusCode then
    ⟨[req1], cache1, .error "ShiprocketAPIError"⟩
  else
    ⟨[req1], cache1, .ok resp1.body⟩

/-! ## Refund records -/

/-- Money fields of orders.models.OrderRefund. -/
structure OrderRefund where
  refund_amount : Money
  processing_fee : Money
  final_refund_amount : Money
  deriving DecidableEq, Repr

/-- OrderRefund.save (orders/models.py lines 453-456): every save recomputes
final_refund_amount as refund_amount - processing_fee, with no clamping. -/
def order_refund_save (refund_amount processing_fee : Money) : OrderRefund :=
  { refund_amount := refund_amount
    processing_fee := processing_fee
    final_refund_amount := refund_amount - processing_fee }

/-- The refund record created by CancelOrderView.post (orders/api/views.py
lines 300-305): processing_fee is left at its model default of 0.00. -/
def cancel_order_refund (o : Order) : OrderRefund :=
  order_refund_save o.total_amount 0

/-! ## Sample data used by concrete evaluations -/

/-- A confirmed, paid, UPI order whose money fields satisfy the creation
invariant (445 + 50 + 0 + 5 - 0 = 500), with a bookkeeping gateway fee of
10.00 and a recorded platform fee of 5.00. -/
def baseOrder : Order :=
  { status := .confirmed
    payment_method := .upi
    payment_status := .completed
    subtotal := 445
    shipping_charges := 50
    discount_amount := 0
    tax_amount := 0
    razorpay_fee := 10
    platform_fee := 5
    payment_mode_charge := 0
    total_amount := 500
    payment_transaction_id := some "pay_1"
    razorpay_order_id := some "order_1"
    razorpay_payment_id := some "pay_1"
    razorpay_signature := none
    shiprocket_order_id := some "12345" }

/-- The same order before payment, still pending. -/
def pendingOrder : Order :=
  { baseOrder with status := .pending, payment_status := .pending }

/-- The cancellation request created from `baseOrder`: refund 500.00,
gateway deduction 10.00, platform deduction 5.00, final 485.00. -/
def sampleRequest : CancellationRequest := create_cancellation_request baseOrder

/-- Admin input: process the refund and the carrier cancellation, with no
overrides at all. -/
def noOverrides : RefundOverrides :=
  { process_refund := true
    cancel_in_shiprocket := true
    final_refund_amount := none
    razorpay_fee_deduction := none
    platform_fee_deduction := none }

/-- Admin input of concrete scenario C: a final override of 490.00 with no
deduction overrides. -/
def override490 : RefundOverrides :=
  { noOverrides with final_refund_amount := some 490 }

/-- An order created through the serializer with a single tie-producing
item: unit price 562.50, rate 1% — exact platform fee 5.625. -/
def tieOrder : Order := order_create_money .upi [⟨1, (1125 : ℚ)/2⟩] (some 1)

/-- The tie order after Order.calculate_totals runs again on its item. -/
def cexCreated : Order := order_create_money .upi [⟨1, 600⟩] (some 2)

/-- The order `cexCreated` after the later recomputation by
Order.calculate_totals. -/
def cexRecomputed : Order := calculate_totals cexCreated [order_item_save 1 600]

/-! ## Helper lemmas -/

/-- No status appears in its own row of the code's transition table. -/
theorem valid_transitions_irrefl :
    ∀ s t : OrderStatus, t ∈ valid_transitions s → t ≠ s := by decide

/-- Half-even rounding lands within half a unit of its argument. -/
theorem roundHalfEvenInt_close (y : ℚ) : |(roundHalfEvenInt y : ℚ) - y| ≤ 1/2 := by
  have h0 := Int.floor_le y
  have h1 := Int.lt_floor_add_one y
  simp only [roundHalfEvenInt]
  split_ifs with hlt hgt hev <;> rw [abs_le] <;> push_cast <;> constructor <;> linarith

/-- On an exact half, half-even rounding returns an even integer. -/
theorem roundHalfEvenInt_tie_even (y : ℚ) (h : y - ⌊y⌋ = 1/2) :
    roundHalfEvenInt y % 2 = 0 := by
  simp only [roundHalfEvenInt, h, lt_irrefl, if_false]
  split_ifs with hev
  · exact hev
  · omega

/-- Quantizing to cents with half-even rounding stays within half a cent. -/
theorem quantize2_close (x : ℚ) : |quantize2 x - x| ≤ 1/200 := by
  have h := roundHalfEvenInt_close (x * 100)
  rw [quantize2,
    show (roundHalfEvenInt (x * 100) : ℚ)/100 - x
        = ((roundHalfEvenInt (x * 100) : ℚ) - x * 100)/100 by ring,
    abs_div, abs_of_pos (by norm_num : (0:ℚ) < 100)]
  linarith

/-- The final refund amount persisted by the admin processing operation
depends only on the overrides and the request as approved: a provided final
amount wins; otherwise provided deductions set it to the clamped
difference; otherwise it is untouched.  The refund and carrier phases never
modify it. -/
theorem admin_process_refund_final (st : RefundState) (d : RefundOverrides)
    (notes : String) (rc : RefundOutcome) (cc : CarrierOutcome) :
    (admin_process_refund st d notes rc cc).1.request.final_refund_amount =
      match d.final_refund_amount with
      | some fo => fo
      | none =>
          if d.razorpay_fee_deduction.isSome || d.platform_fee_deduction.isSome then
            max (st.request.refund_amount
              - (d.razorpay_fee_deduction.getD 0 + d.platform_fee_deduction.getD 0)) 0
          else st.request.final_refund_amount := by
  rcases d with ⟨pr, cs, fo, rpd, pfd⟩
  rcases fo with _ | f <;> rcases rpd with _ | rv <;> rcases pfd with _ | pv <;>
    cases rc <;> cases cc <;>
      simp [admin_process_refund, approve_cancellation, mark_refund_processed,
        shiprocket_phase] <;>
      split_ifs <;> simp

/-! ## C1 — refund failure during admin processing -/

/-- C1: evaluating AdminProcessRefundView.post at the failing input — the
pending scenario-C request (refund 500.00, deductions 10.00 / 5.00) on a
paid order with a gateway payment id, refund requested with no overrides,
and a gateway refund call that fails.  The operation returns the failure
response, writes no history entry and leaves the order untouched, but the
request's fields do change and are committed: its status is now approved
instead of pending, because every failure path leaves the
transaction.atomic block with a plain return — a normal exit, which
commits — so the claimed rollback to an unchanged request does not
happen. -/
theorem C1_refund_failure_commits_approval :
    admin_refund_validate sampleRequest noOverrides = .ok () ∧
    (admin_process_refund ⟨sampleRequest, baseOrder, []⟩ noOverrides "" .failed .ok).2
      = .badRequest "Failed to process refund in Razorpay" ∧
    (admin_process_refund ⟨sampleRequest, baseOrder, []⟩ noOverrides ""
        .failed .ok).1.request.request_status = RequestStatus.approved ∧
    (admin_process_refund ⟨sampleRequest, baseOrder, []⟩ noOverrides ""
        .failed .ok).1.request ≠ sampleRequest ∧
    (admin_process_refund ⟨sampleRequest, baseOrder, []⟩ noOverrides ""
        .failed .ok).1.history = [] ∧
    (admin_process_refund ⟨sampleRequest, baseOrder, []⟩ noOverrides ""
        .failed .ok).1.order = baseOrder := by
  refine ⟨?_, ?_, ?_, ?_, ?_, ?_⟩ <;>
    norm_num [admin_refund_validate, admin_process_refund, approve_cancellation,
      sampleRequest, create_cancellation_request, baseOrder, noOverrides, is_neg,
      Option.elim, shiprocket_phase, mark_refund_processed]
  decide

/-! ## C2 — inventory adjustments over an item lifecycle -/

/-- C2: evaluating the inventory flows at the failing input.  Creating a
one-item order for quantity 3 against a product whose baseline stock is 10
leaves 7 available (the serializer's stale in-memory write lands on top of
the signal's decrement), but the customer-cancel path then restores the
quantity twice — once in the Order post_save signal and once in the view's
explicit loop — leaving 13: the full create-then-cancel lifecycle drifts by
+3 instead of netting to zero, refuting the exactly-one-adjustment claim. -/
theorem C2_inventory_lifecycle_drift :
    create_item_inventory 10 3 = .ok 7 ∧
    cancel_order_inventory 7 3 = 13 ∧ (13 : ℚ) ≠ 10 := by
  refine ⟨?_, ?_, by norm_num⟩
  · norm_num [create_item_inventory, signal_item_created]
  · norm_num [cancel_order_inventory, signal_order_cancelled]

/-! ## C4 — order status transition table -/

/-- C4 counterexample: section 4.3 of the specification lists
pending → failed as an allowed transition, but the code's table omits it,
so the status-update operation rejects a pending order's move to failed. -/
theorem C4_pending_to_failed_counterexample :
    OrderStatus.failed ∈ spec_transitions .pending ∧
    order_update pendingOrder [] .failed false = .error "Cannot change status" := by
  refine ⟨by decide, ?_⟩
  simp [order_update, validate_status, valid_transitions, pendingOrder]

/-- C4 (amended): a requested status change through the status-update
operation succeeds iff the (current, target) pair is in the code's
transition table — the table of section 4.3 except that a pending order may
move only to confirmed or cancelled, not to failed.  A rejected transition
returns an error and produces no new state, while an accepted one sets the
target status and appends exactly one history entry. -/
theorem C4_transition_closure_amended (o : Order) (hist : List HistoryEntry)
    (t : OrderStatus) (isAdmin : Bool) :
    ((order_update o hist t isAdmin).isOk ↔ t ∈ valid_transitions o.status) ∧
    (t ∉ valid_transitions o.status →
      order_update o hist t isAdmin = .error "Cannot change status") ∧
    (t ∈ valid_transitions o.status →
      order_update o hist t isAdmin =
        .ok ({ o with status := t },
          hist ++ [⟨t, status_title t, if isAdmin then "admin" else "api"⟩])) := by
  by_cases h : t ∈ valid_transitions o.status
  · have hne := valid_transitions_irrefl o.status t h
    simp [order_update, validate_status, h, hne, Except.isOk, Except.toBool]
  · simp [order_update, validate_status, h, Except.isOk, Except.toBool]

/-- C4 witness: a concrete allowed transition, pending → confirmed, taken
through the amended theorem. -/
theorem C4_transition_closure_amended_witness :
    OrderStatus.confirmed ∈ valid_transitions pendingOrder.status ∧
    order_update pendingOrder [] .confirmed false =
      .ok ({ pendingOrder with status := .confirmed },
        [⟨.confirmed, status_title .confirmed, "api"⟩]) := by
  have h : OrderStatus.confirmed ∈ valid_transitions pendingOrder.status := by decide
  exact ⟨h, by
    simpa using (C4_transition_closure_amended pendingOrder [] .confirmed false).2.2 h⟩

/-! ## C3 — totals invariant -/

/-- C3 counterexample: the order created with one 600.00 item at rate 2%
carries platform fee 12.00 and total 612.00; after Order.calculate_totals
runs on it, the stored total is 600.00, which no longer satisfies
total = subtotal + shipping + tax + platform_fee - discount. -/
theorem C3_recompute_drops_platform_fee :
    cexCreated.total_amount = 612 ∧
    cexRecomputed.platform_fee = 12 ∧
    cexRecomputed.total_amount = 600 ∧
    cexRecomputed.total_amount ≠
      cexRecomputed.subtotal + cexRecomputed.shipping_charges
        + cexRecomputed.tax_amount + cexRecomputed.platform_fee
        - cexRecomputed.discount_amount := by
  have hne : PaymentMethod.upi ≠ PaymentMethod.cod := by decide
  refine ⟨?_, ?_, ?_, ?_⟩ <;>
    norm_num [cexCreated, cexRecomputed, order_create_money, order_item_save,
      calculate_totals, platform_fee_calc, quantize2, roundHalfEvenInt, hne]

/-- C3 (amended): the totals invariant — total equals subtotal + shipping +
tax + platform_fee - discount, with the gateway fee zero and never added —
holds for every order as created by the checkout serializer, for any line
items, any rate-table lookup and both COD and non-COD methods; but
Order.calculate_totals recomputes the total without the platform fee, as
subtotal + shipping + tax - discount, so the invariant survives a later
recomputation only when the platform fee is zero. -/
theorem C3_totals_invariant_amended (pm : PaymentMethod)
    (items : List CreateItemInput) (pct : Option ℚ)
    (o : Order) (its : List OrderItem) :
    ((order_create_money pm items pct).total_amount
        = (order_create_money pm items pct).subtotal
          + (order_create_money pm items pct).shipping_charges
          + (order_create_money pm items pct).tax_amount
          + (order_create_money pm items pct).platform_fee
          - (order_create_money pm items pct).discount_amount) ∧
    (order_create_money pm items pct).razorpay_fee = 0 ∧
    ((calculate_totals o its).total_amount
      = (calculate_totals o its).subtotal + (calculate_totals o its).shipping_charges
        + (calculate_totals o its).tax_amount - (calculate_totals o its).discount_amount) := by
  refine ⟨?_, ?_, ?_⟩ <;> simp [order_create_money, calculate_totals]

/-! ## C5 — admin override consistency check -/

/-- C5 counterexample: concrete scenario C — refund 500.00, stored
deductions 10.00 and 5.00 (final 485.00), admin final override 490.00 with
no deduction overrides — is accepted by the refund validator even though it
differs from refund minus the stored deductions by 5.00, far beyond the
0.10 tolerance: the consistency check runs only when a deduction override
accompanies the final override, and it never consults the stored
deductions. -/
theorem C5_override_without_deductions_accepted :
    sampleRequest.refund_amount = 500 ∧
    sampleRequest.razorpay_fee_deduction = 10 ∧
    sampleRequest.platform_fee_deduction = 5 ∧
    sampleRequest.final_refund_amount = 485 ∧
    (1:ℚ)/10 < |sampleRequest.refund_amount - sampleRequest.razorpay_fee_deduction
      - sampleRequest.platform_fee_deduction - 490| ∧
    admin_refund_validate sampleRequest override490 = .ok () := by
  refine ⟨?_, ?_, ?_, ?_, ?_, ?_⟩ <;>
    norm_num [sampleRequest, create_cancellation_request, baseOrder,
      admin_refund_validate, override490, noOverrides, is_neg, Option.elim]

/-- C5 (amended): a final-amount override with no deduction overrides is
never compared against the stored deductions; it is accepted exactly when
it lies between 0 and the request's refund amount — the 0.10 consistency
tolerance applies only when at least one deduction override is supplied
alongside the final amount.  In particular the 490.00 override of scenario
C is accepted, not rejected. -/
theorem C5_final_only_override_amended (cr : CancellationRequest) (f : ℚ)
    (pr cs : Bool) (hp : cr.request_status = RequestStatus.pending) :
    admin_refund_validate cr
      { process_refund := pr, cancel_in_shiprocket := cs,
        final_refund_amount := some f, razorpay_fee_deduction := none,
        platform_fee_deduction := none } = .ok ()
      ↔ (0 ≤ f ∧ f ≤ cr.refund_amount) := by
  by_cases h1 : f < 0
  · simp [admin_refund_validate, hp, is_neg, Option.elim, h1]
  · by_cases h2 : cr.refund_amount < f
    · simp [admin_refund_validate, hp, is_neg, Option.elim, h1, h2]
    · simp [admin_refund_validate, hp, is_neg, Option.elim, h1, h2]
      exact ⟨le_of_not_lt h1, le_of_not_lt h2⟩

/-- C5 witness: the amended theorem instantiated at scenario C. -/
theorem C5_final_only_override_amended_witness :
    sampleRequest.request_status = RequestStatus.pending ∧
    (admin_refund_validate sampleRequest
        { process_refund := true, cancel_in_shiprocket := true,
          final_refund_amount := some 490, razorpay_fee_deduction := none,
          platform_fee_deduction := none } = .ok ()
      ↔ (0 ≤ (490:ℚ) ∧ (490:ℚ) ≤ sampleRequest.refund_amount)) :=
  ⟨rfl, C5_final_only_override_amended sampleRequest 490 true true rfl⟩

/-! ## C6 — platform fee rounding mode -/

/-- C6 counterexample: at rate 1% on a fee base of 562.50 the exact fee is
5.625; the creation path stores 5.62 (the Decimal default, half-even),
while the round-half-up rule the claim states would store 5.63. -/
theorem C6_half_cent_tie_rounds_to_even :
    tieOrder.platform_fee = (562 : ℚ)/100 ∧
    quantize2HalfUpSpec ((1125 : ℚ)/2 * (1/100)) = (563 : ℚ)/100 ∧
    tieOrder.platform_fee ≠ quantize2HalfUpSpec ((1125 : ℚ)/2 * (1/100)) := by
  have hne : PaymentMethod.upi ≠ PaymentMethod.cod := by decide
  refine ⟨?_, ?_, ?_⟩ <;>
    norm_num [tieOrder, order_create_money, order_item_save, platform_fee_calc,
      quantize2, quantize2HalfUpSpec, roundHalfEvenInt, roundHalfUpIntSpec, hne]

/-- C6 (amended): for every non-COD order built by the checkout serializer
with a successful rate lookup, the platform fee is the exact decimal
product (subtotal + shipping) x rate / 100 rounded to two decimal places
with ROUND_HALF_EVEN — banker's rounding, not round-half-up: the stored fee
is the half-even cent count divided by 100, lies within half a cent of the
exact product, and an exact half-cent tie produces an even number of
cents. -/
theorem C6_platform_fee_half_even (pm : PaymentMethod)
    (items : List CreateItemInput) (pct base : ℚ)
    (hpm : pm ≠ PaymentMethod.cod)
    (hbase : base = (order_create_money pm items (some pct)).subtotal
        + (order_create_money pm items (some pct)).shipping_charges) :
    (order_create_money pm items (some pct)).platform_fee
      = (roundHalfEvenInt (base * (pct / 100) * 100) : ℚ) / 100 ∧
    |(order_create_money pm items (some pct)).platform_fee - base * (pct / 100)|
      ≤ 1/200 ∧
    (base * (pct / 100) * 100 - ⌊base * (pct / 100) * 100⌋ = 1/2 →
      roundHalfEvenInt (base * (pct / 100) * 100) % 2 = 0) := by
  have hfee : (order_create_money pm items (some pct)).platform_fee
      = quantize2 (base * (pct / 100)) := by
    subst hbase
    simp [order_create_money, platform_fee_calc, hpm]
  refine ⟨by rw [hfee, quantize2], ?_, fun ht => roundHalfEvenInt_tie_even _ ht⟩
  rw [hfee]
  exact quantize2_close _

/-- C6 witness: the amended theorem at the tie-producing order (base
562.50, rate 1%). -/
theorem C6_platform_fee_half_even_witness :
    (PaymentMethod.upi ≠ PaymentMethod.cod) ∧
    ((1125 : ℚ)/2 = tieOrder.subtotal + tieOrder.shipping_charges) ∧
    (tieOrder.platform_fee
        = (roundHalfEvenInt ((1125 : ℚ)/2 * ((1:ℚ) / 100) * 100) : ℚ) / 100 ∧
      |tieOrder.platform_fee - (1125 : ℚ)/2 * ((1:ℚ) / 100)| ≤ 1/200 ∧
      ((1125 : ℚ)/2 * ((1:ℚ) / 100) * 100 - ⌊(1125 : ℚ)/2 * ((1:ℚ) / 100) * 100⌋ = 1/2 →
        roundHalfEvenInt ((1125 : ℚ)/2 * ((1:ℚ) / 100) * 100) % 2 = 0)) :=
  ⟨by decide, by norm_num [tieOrder, order_create_money, order_item_save],
   C6_platform_fee_half_even .upi [⟨1, (1125 : ℚ)/2⟩] 1 ((1125 : ℚ)/2) (by decide)
     (by norm_num [tieOrder, order_create_money, order_item_save])⟩

/-! ## C7 — refund monotonicity -/

/-- C7: for every cancellation request created from an order whose recorded
fees and total are non-negative, and for every admin override combination
the validator accepts, the final refund amount persisted by the admin
processing operation — whatever the gateway and carrier outcomes — stays
between 0 and the request's snapshotted refund amount. -/
theorem C7_final_refund_amount_bounds (o : Order) (d : RefundOverrides)
    (notes : String) (rc : RefundOutcome) (cc : CarrierOutcome)
    (hrf : 0 ≤ o.razorpay_fee) (hpf : 0 ≤ o.platform_fee)
    (hta : 0 ≤ o.total_amount)
    (hacc : admin_refund_validate (create_cancellation_request o) d = .ok ()) :
    0 ≤ (admin_process_refund ⟨create_cancellation_request o, o, []⟩ d notes
        rc cc).1.request.final_refund_amount ∧
    (admin_process_refund ⟨create_cancellation_request o, o, []⟩ d notes
        rc cc).1.request.final_refund_amount
      ≤ (create_cancellation_request o).refund_amount := by
  have hcr0 : 0 ≤ (create_cancellation_request o).final_refund_amount := by
    simp only [create_cancellation_request]
    split_ifs with h
    · exact le_refl 0
    · linarith [not_lt.mp h]
  have hcr1 : (create_cancellation_request o).final_refund_amount
      ≤ (create_cancellation_request o).refund_amount := by
    simp only [create_cancellation_request]
    split_ifs with h
    · exact hta
    · linarith
  have hrefund : (create_cancellation_request o).refund_amount = o.total_amount := rfl
  rw [admin_process_refund_final]
  rcases d with ⟨pr, cs, fo, rpd, pfd⟩
  rcases fo with _ | f <;> rcases rpd with _ | rv <;> rcases pfd with _ | pv <;>
    simp only [admin_refund_validate, is_neg, Option.elim, Option.isSome,
      Option.getD, ne_eq, Bool.or_false, Bool.false_or, Bool.and_false,
      Bool.false_and, Bool.or_true, Bool.true_or] at hacc ⊢ <;>
    split_ifs at hacc <;>
    simp_all
  all_goals linarith

/-- C7 witness: the bounds at the scenario-C request processed with no
overrides and a successful refund and carrier cancellation. -/
theorem C7_final_refund_amount_bounds_witness :
    (0:ℚ) ≤ baseOrder.razorpay_fee ∧ (0:ℚ) ≤ baseOrder.platform_fee ∧
    (0:ℚ) ≤ baseOrder.total_amount ∧
    admin_refund_validate (create_cancellation_request baseOrder) noOverrides
      = .ok () ∧
    (0 ≤ (admin_process_refund ⟨create_cancellation_request baseOrder, baseOrder, []⟩
        noOverrides "" (.ok "rfnd_1") .ok).1.request.final_refund_amount ∧
      (admin_process_refund ⟨create_cancellation_request baseOrder, baseOrder, []⟩
        noOverrides "" (.ok "rfnd_1") .ok).1.request.final_refund_amount
        ≤ (create_cancellation_request baseOrder).refund_amount) := by
  have hv : admin_refund_validate (create_cancellation_request baseOrder) noOverrides
      = .ok () := by
    norm_num [admin_refund_validate, create_cancellation_request, baseOrder,
      noOverrides, is_neg, Option.elim]
  refine ⟨by norm_num [baseOrder], by norm_num [baseOrder], by norm_num [baseOrder],
    hv, ?_⟩
  exact C7_final_refund_amount_bounds baseOrder noOverrides "" (.ok "rfnd_1") .ok
    (by norm_num [baseOrder]) (by norm_num [baseOrder]) (by norm_num [baseOrder]) hv

/-! ## C8 — idempotent payment verification -/

/-- C8: payment-confirmation processing is gated on the order's current
payment status: when it is already completed, the repeated verification is
rejected with the already-completed message and the order, its history, and
every stored payment field are returned unchanged. -/
theorem C8_verify_gated_on_payment_status (o : Order) (hist : List HistoryEntry)
    (req : VerifyRequest) (sv sgv : Bool) (fr : Option PaymentDetails)
    (h : o.payment_status = PaymentStatus.completed) :
    verify_razorpay_payment o hist req sv sgv fr
      = (o, hist, .badRequest "Payment already completed for this order") := by
  simp [verify_razorpay_payment, h]

/-- C8 witness: a paid order receiving the same verification again. -/
theorem C8_verify_gated_on_payment_status_witness :
    baseOrder.payment_status = PaymentStatus.completed ∧
    verify_razorpay_payment baseOrder [] ⟨"order_1", "pay_1", "sig"⟩ true true none
      = (baseOrder, [], .badRequest "Payment already completed for this order") :=
  ⟨rfl, C8_verify_gated_on_payment_status baseOrder [] ⟨"order_1", "pay_1", "sig"⟩
    true true none rfl⟩

/-! ## C9 — carrier auth refresh and single retry -/

/-- C9: when the first carrier response is a 401, the cached token is
discarded and replaced by a freshly fetched one, and the data request is
re-sent exactly once — the trace holds exactly two attempts, the second
carrying the fresh token, each with the fixed 30-second timeout; if the
retry also comes back with an error status the call surfaces a
ShiprocketAPIError instead of retrying again, and a non-error retry
response is returned as the result. -/
theorem C9_auth_401_retry_once (cache : Option String) (ft f2 : String)
    (r1 r2 : HttpResponse) (h : r1.statusCode = 401) :
    (make_request cache ft f2 r1 r2).sent = [⟨cache.getD ft, 30⟩, ⟨f2, 30⟩] ∧
    (make_request cache ft f2 r1 r2).cacheAfter = some f2 ∧
    (400 ≤ r2.statusCode →
      (make_request cache ft f2 r1 r2).result = .error "ShiprocketAPIError") ∧
    (r2.statusCode < 400 →
      (make_request cache ft f2 r1 r2).result = .ok r2.body) := by
  by_cases h2 : 400 ≤ r2.statusCode
  · simp [make_request, h, h2]
  · simp [make_request, h, h2]

/-- C9 witness: a cached stale token, a 401, then a second 401: two
attempts and a carrier error. -/
theorem C9_auth_401_retry_once_witness :
    (⟨401, ""⟩ : HttpResponse).statusCode = 401 ∧
    ((make_request (some "tokA") "tokX" "tokB" ⟨401, ""⟩ ⟨401, ""⟩).sent
        = [⟨(some "tokA").getD "tokX", 30⟩, ⟨"tokB", 30⟩] ∧
      (make_request (some "tokA") "tokX" "tokB" ⟨401, ""⟩ ⟨401, ""⟩).cacheAfter
        = some "tokB" ∧
      (400 ≤ (⟨401, ""⟩ : HttpResponse).statusCode →
        (make_request (some "tokA") "tokX" "tokB" ⟨401, ""⟩ ⟨401, ""⟩).result
          = .error "ShiprocketAPIError") ∧
      ((⟨401, ""⟩ : HttpResponse).statusCode < 400 →
        (make_request (some "tokA") "tokX" "tokB" ⟨401, ""⟩ ⟨401, ""⟩).result
          = .ok (⟨401, ""⟩ : HttpResponse).body)) :=
  ⟨rfl, C9_auth_401_retry_once (some "tokA") "tokX" "tokB" ⟨401, ""⟩ ⟨401, ""⟩ rfl⟩

/-! ## C10 — OrderRefund.save arithmetic -/

/-- C10: every OrderRefund save stores final_refund_amount as exactly
refund_amount - processing_fee with no lower clamp — so a processing fee
above the refund amount yields a negative stored final amount — and the
direct customer-cancel path creates the record with the 0.00 default fee,
where the final amount equals the refund amount (the order total). -/
theorem C10_refund_save_unclamped (r p : ℚ) (o : Order) :
    (order_refund_save r p).final_refund_amount = r - p ∧
    (r < p → (order_refund_save r p).final_refund_amount < 0) ∧
    (cancel_order_refund o).processing_fee = 0 ∧
    (cancel_order_refund o).refund_amount = o.total_amount ∧
    (cancel_order_refund o).final_refund_amount = o.total_amount := by
  refine ⟨rfl, ?_, rfl, rfl, ?_⟩
  · intro hlt
    simp only [order_refund_save]
    linarith
  · simp [cancel_order_refund, order_refund_save]

/-- C10 witness: a 150.00 fee against a 100.00 refund goes negative, and
the cancel path on the sample order refunds the full 500.00. -/
theorem C10_refund_save_unclamped_witness :
    (100 : ℚ) < 150 ∧
    ((order_refund_save 100 150).final_refund_amount = 100 - 150 ∧
      (order_refund_save 100 150).final_refund_amount < 0 ∧
      (cancel_order_refund baseOrder).processing_fee = 0 ∧
      (cancel_order_refund baseOrder).refund_amount = baseOrder.total_amount ∧
      (cancel_order_refund baseOrder).final_refund_amount = baseOrder.total_amount) := by
  have h := C10_refund_save_unclamped 100 150 baseOrder
  exact ⟨by norm_num, h.1, h.2.1 (by norm_num), h.2.2.1, h.2.2.2.1, h.2.2.2.2⟩

end Kissanmart
